import Mathlib

/-!
Verification of the clickSUMO road-network generator and signal-timing engine.

The definitions below are a shallow embedding of the Python sources:
  * `src/src/core/xml_generators.py` — entity data classes, XML generators,
    and the Webster cycle-length helper;
  * `src/src/network/templates.py` — the six topology template generators;
  * `src/app.py` (`show_signal_designer`) — the Webster timing optimization
    and green-wave offset computations of the signal designer.

Python floats are modelled as exact rationals (ℚ); Python ints as ℤ/ℕ.
Fallible code (raising `ValueError`/`ZeroDivisionError`) is modelled with
`Except String`.  XML trees are modelled structurally and the pretty-printer
as a deterministic renderer to `String`; the exact numeral rendering of
Python's `str()` is abstracted by `toString` on ℚ, which none of the proved
properties depend on.
-/

namespace ClickSUMO

/-! ## Timing optimizer: Webster cycle length (xml_generators.calculate_webster_cycle) -/

/-- Error message raised by `calculate_webster_cycle` when `Y >= 1`. -/
def websterErrMsg : String := "Sum of critical ratios must be less than 1"

/-- Embedding of `calculate_webster_cycle(critical_ratios, lost_time)`:
`Y = sum(critical_ratios)`; raises `ValueError` if `Y >= 1`,
otherwise returns `(1.5 * lost_time + 5) / (1 - Y)`. -/
def calculate_webster_cycle (critical_ys : List ℚ) (lost_time : ℚ) : Except String ℚ :=
  let Y := critical_ys.sum
  if 1 ≤ Y then Except.error websterErrMsg
  else Except.ok ((3/2 * lost_time + 5) / (1 - Y))

/-! ## Timing optimizer: the signal-designer Webster computation (app.show_signal_designer)

The Streamlit handler computes, from the flow ratios `ys` and total lost time `L`:
`C_opt = (1.5*L + 5) / (1 - Y)`, then `C_opt = max(30, min(C_opt, 180))`,
then `g_i = (y_i / Y) * (C_opt - L)` for each ratio.  Python raises
`ZeroDivisionError` where a denominator is zero; there is no `Y >= 1` guard. -/

/-- Green-time loop of the designer: `g_i = (y_i / Y) * eff`; a division by
`Y = 0` raises (only when the loop body actually runs). -/
def greensOf (Y eff : ℚ) : List ℚ → Except String (List ℚ)
  | [] => Except.ok []
  | y :: ys =>
    if Y = 0 then Except.error "float division by zero"
    else
      match greensOf Y eff ys with
      | Except.ok gs => Except.ok (y / Y * eff :: gs)
      | Except.error e => Except.error e

/-- Embedding of the Webster block of `show_signal_designer` (src/app.py):
no oversaturation guard; the raw cycle is clamped into [30, 180] by
`max(30, min(C_opt, 180))`; green times split `(y_i / Y) * (C - L)`. -/
def websterOptimize (ys : List ℚ) (L : ℚ) : Except String (ℚ × List ℚ) :=
  let Y := ys.sum
  if Y = 1 then Except.error "float division by zero"
  else
    let C := max 30 (min ((3/2 * L + 5) / (1 - Y)) 180)
    match greensOf Y (C - L) ys with
    | Except.ok gs => Except.ok (C, gs)
    | Except.error e => Except.error e

/-! ## Timing optimizer: green-wave offsets (app.show_signal_designer, coordination tab) -/

/-- Python's `%` on rationals (for a positive modulus this is exactly
`a - m * floor (a / m)`, the value Python computes for floats). -/
def pymod (a m : ℚ) : ℚ := a - m * ⌊a / m⌋

/-- Tail of the offset chain: starting after `prev`, each distance `d`
contributes `(prev + d / speed) % cycle`. -/
def offsetsFrom (cycle speed : ℚ) : ℚ → List ℚ → List ℚ
  | _, [] => []
  | prev, d :: ds =>
    let o := pymod (prev + d / speed) cycle
    o :: offsetsFrom cycle speed o ds

/-- Embedding of the coordination-tab loop: `offsets = [0]`, then for each
distance `offset = (offsets[-1] + dist / speed) % common_cycle`. -/
def greenWaveOffsets (cycle speed : ℚ) (distances : List ℚ) : List ℚ :=
  0 :: offsetsFrom cycle speed 0 distances

/-! ### Basic facts about `pymod` -/

theorem pymod_nonneg (a : ℚ) {m : ℚ} (hm : 0 < m) : 0 ≤ pymod a m := by
  have h := Int.fract_nonneg (a / m)
  have hfr : pymod a m = m * Int.fract (a / m) := by
    unfold pymod Int.fract
    field_simp
  rw [hfr]
  positivity

theorem pymod_lt (a : ℚ) {m : ℚ} (hm : 0 < m) : pymod a m < m := by
  have h := Int.fract_lt_one (a / m)
  have hfr : pymod a m = m * Int.fract (a / m) := by
    unfold pymod Int.fract
    field_simp
  rw [hfr]
  calc m * Int.fract (a / m) < m * 1 := by
        exact mul_lt_mul_of_pos_left h hm
    _ = m := mul_one m

/-! ## Entity model (dataclasses of xml_generators.py)

Field values are stored as constructed; the `__post_init__` validations that
matter to the claims (`Phase`) are modelled separately as checked smart
constructors, mirroring the fact that in Python validation runs at
construction and the dataclass itself holds plain fields. -/

/-- Junction/node of the network (dataclass `Node`). -/
structure Node where
  id : String
  x : ℚ
  y : ℚ
  node_type : String := "priority"
  tl_type : String := ""
deriving Repr, DecidableEq

/-- Directed road segment (dataclass `Edge`). -/
structure Edge where
  id : String
  from_node : String
  to_node : String
  num_lanes : ℕ := 1
  speed : ℚ := 1389/100
  priority : ℤ := 1
  edge_type : String := ""
  allow : String := ""
  disallow : String := ""
deriving Repr, DecidableEq

/-- Lane-to-lane connection (dataclass `Connection`). -/
structure Connection where
  from_edge : String
  to_edge : String
  from_lane : ℤ
  to_lane : ℤ
deriving Repr, DecidableEq

/-- Traffic light phase (dataclass `Phase`). -/
structure Phase where
  duration : ℤ
  state : String
  min_dur : ℤ := 0
  max_dur : ℤ := 0
  name : String := ""
deriving Repr, DecidableEq

/-- Complete traffic light program (dataclass `TrafficLight`). -/
structure TrafficLight where
  id : String
  phases : List Phase
  tl_type : String := "static"
  program_id : String := "0"
  offset : ℤ := 0
deriving Repr, DecidableEq

/-- Traffic flow record (dataclass `Flow`); `begin`/`end` renamed `begin_t`/`end_t`
because `end` is reserved in Lean. -/
structure Flow where
  id : String
  from_edge : String := ""
  to_edge : String := ""
  route_id : String := ""
  vtype : String := "DEFAULT_VEHTYPE"
  begin_t : ℚ := 0
  end_t : ℚ := 3600
  vehs_per_hour : ℚ := 0
  probability : ℚ := 0
  period : ℚ := 0
  number : ℤ := 0
deriving Repr, DecidableEq

/-- Aggregate network under construction (class `NetworkGenerator`): four
insertion-ordered lists that `add_node` / `add_edge` / `add_connection` /
`add_traffic_light` append to. -/
structure NetworkGenerator where
  nodes : List Node := []
  edges : List Edge := []
  connections : List Connection := []
  traffic_lights : List TrafficLight := []
deriving Repr, DecidableEq

/-- Method `add_node`: appends and returns the generator (fluent style). -/
def add_node (g : NetworkGenerator) (n : Node) : NetworkGenerator :=
  { g with nodes := g.nodes ++ [n] }

/-- Method `add_edge`. -/
def add_edge (g : NetworkGenerator) (e : Edge) : NetworkGenerator :=
  { g with edges := g.edges ++ [e] }

/-- Method `add_traffic_light`. -/
def add_traffic_light (g : NetworkGenerator) (tl : TrafficLight) : NetworkGenerator :=
  { g with traffic_lights := g.traffic_lights ++ [tl] }

/-- Ids of all junctions present in the graph. -/
def nodeIds (g : NetworkGenerator) : List String := g.nodes.map Node.id

/-- Helper `kmh_to_ms(kmh) = kmh / 3.6` (3.6 = 18/5). -/
def kmh_to_ms (kmh : ℚ) : ℚ := kmh / (18/5)

/-- Python's string repetition `c * k` for a single character. -/
def strRep (c : Char) (k : ℕ) : String := String.mk (List.replicate k c)

theorem strRep_length (c : Char) (k : ℕ) : (strRep c k).length = k := by
  simp [strRep, String.length]

/-! ## Topology template generators (templates.py)

Each generator is written as the explicit record the Python `generate`
method accumulates by successive `add_node` / `add_edge` /
`add_traffic_light` calls, with the lists in exactly the source's loop
order. -/

/-- Template `FourWayIntersection.generate`. -/
def fourWayGenerate (arm_length : ℚ) (lanes_per_arm : ℕ) (speed_limit : ℚ)
    (signal_type : String) (green_time_ns green_time_ew yellow_time : ℤ) :
    NetworkGenerator :=
  let speed := kmh_to_ms speed_limit
  let n := lanes_per_arm
  let ns_green := strRep 'G' (n*2) ++ strRep 'r' (n*2) ++ strRep 'G' (n*2) ++ strRep 'r' (n*2)
  let ns_yellow := strRep 'y' (n*2) ++ strRep 'r' (n*2) ++ strRep 'y' (n*2) ++ strRep 'r' (n*2)
  let ew_green := strRep 'r' (n*2) ++ strRep 'G' (n*2) ++ strRep 'r' (n*2) ++ strRep 'G' (n*2)
  let ew_yellow := strRep 'r' (n*2) ++ strRep 'y' (n*2) ++ strRep 'r' (n*2) ++ strRep 'y' (n*2)
  { nodes := [
      ⟨"C", 0, 0, "traffic_light", signal_type⟩,
      ⟨"N", 0, arm_length, "priority", ""⟩,
      ⟨"S", 0, -arm_length, "priority", ""⟩,
      ⟨"E", arm_length, 0, "priority", ""⟩,
      ⟨"W", -arm_length, 0, "priority", ""⟩],
    edges := [("N2C","N","C"), ("C2N","C","N"), ("S2C","S","C"), ("C2S","C","S"),
              ("E2C","E","C"), ("C2E","C","E"), ("W2C","W","C"), ("C2W","C","W")].map
      (fun t => ⟨t.1, t.2.1, t.2.2, n, speed, 1, "", "", ""⟩),
    connections := [],
    traffic_lights := [⟨"C",
      [⟨green_time_ns, ns_green, 0, 0, "NS_Green"⟩,
       ⟨yellow_time, ns_yellow, 0, 0, "NS_Yellow"⟩,
       ⟨green_time_ew, ew_green, 0, 0, "EW_Green"⟩,
       ⟨yellow_time, ew_yellow, 0, 0, "EW_Yellow"⟩],
      signal_type, "0", 0⟩] }

/-- Template `ThreeWayIntersection.generate`. -/
def threeWayGenerate (arm_length : ℚ) (lanes_per_arm : ℕ) (speed_limit : ℚ)
    (has_signal : Bool) : NetworkGenerator :=
  let speed := kmh_to_ms speed_limit
  let n := lanes_per_arm
  { nodes := [
      ⟨"C", 0, 0, if has_signal then "traffic_light" else "priority", ""⟩,
      ⟨"N", 0, arm_length, "priority", ""⟩,
      ⟨"E", arm_length, 0, "priority", ""⟩,
      ⟨"W", -arm_length, 0, "priority", ""⟩],
    edges := [("N2C","N","C"), ("C2N","C","N"), ("E2C","E","C"), ("C2E","C","E"),
              ("W2C","W","C"), ("C2W","C","W")].map
      (fun t => ⟨t.1, t.2.1, t.2.2, n, speed, 1, "", "", ""⟩),
    connections := [],
    traffic_lights := if has_signal then
      [⟨"C",
        [⟨30, strRep 'G' (n*2) ++ strRep 'r' (n*2) ++ strRep 'r' (n*2), 0, 0, ""⟩,
         ⟨3, strRep 'y' (n*2) ++ strRep 'r' (n*2) ++ strRep 'r' (n*2), 0, 0, ""⟩,
         ⟨30, strRep 'r' (n*2) ++ strRep 'G' (n*2) ++ strRep 'G' (n*2), 0, 0, ""⟩,
         ⟨3, strRep 'r' (n*2) ++ strRep 'y' (n*2) ++ strRep 'y' (n*2), 0, 0, ""⟩],
        "static", "0", 0⟩]
      else [] }

/-- Template `Roundabout.generate`.  The junction coordinates use
`math.cos`/`math.sin` of the arm angle in degrees; those transcendental
library calls are abstracted as the parameters `cosD`/`sinD` (cosine/sine of
an angle given in degrees), since no verified property depends on the
coordinate values. -/
def roundaboutGenerate (cosD sinD : ℚ → ℚ) (num_arms : ℕ)
    (radius arm_length : ℚ) (lanes_per_arm roundabout_lanes : ℕ)
    (speed_limit : ℚ) : NetworkGenerator :=
  let speed := kmh_to_ms speed_limit
  let angle := fun i : ℕ => (i : ℚ) * (360 / (num_arms : ℚ))
  { nodes :=
      (List.range num_arms).map (fun i =>
        ⟨"R" ++ toString i, radius * cosD (angle i - 90),
          radius * sinD (angle i - 90), "priority", ""⟩)
      ++ (List.range num_arms).map (fun i =>
        ⟨"A" ++ toString i, (radius + arm_length) * cosD (angle i - 90),
          (radius + arm_length) * sinD (angle i - 90), "priority", ""⟩),
    edges :=
      (List.range num_arms).map (fun i =>
        ⟨"R" ++ toString i ++ "2R" ++ toString ((i+1) % num_arms),
          "R" ++ toString i, "R" ++ toString ((i+1) % num_arms),
          roundabout_lanes, speed, 1, "", "", ""⟩)
      ++ (List.range num_arms).flatMap (fun i =>
        [⟨"A" ++ toString i ++ "2R" ++ toString i, "A" ++ toString i,
           "R" ++ toString i, lanes_per_arm, speed, 1, "", "", ""⟩,
         ⟨"R" ++ toString i ++ "2A" ++ toString i, "R" ++ toString i,
           "A" ++ toString i, lanes_per_arm, speed, 1, "", "", ""⟩]),
    connections := [],
    traffic_lights := [] }

/-- Grid node id `n{row}_{col}`. -/
def gridNid (row col : ℕ) : String := "n" ++ toString row ++ "_" ++ toString col

/-- Template `GridNetwork.generate`. -/
def gridGenerate (rows cols : ℕ) (block_length : ℚ) (lanes : ℕ)
    (speed_limit : ℚ) (signalized : Bool) : NetworkGenerator :=
  let speed := kmh_to_ms speed_limit
  { nodes := (List.range rows).flatMap (fun row => (List.range cols).map (fun col =>
      ⟨gridNid row col, (col : ℚ) * block_length, (row : ℚ) * block_length,
        if (row = 0 ∨ row = rows - 1 ∨ col = 0 ∨ col = cols - 1) ∨ signalized = false
        then "priority" else "traffic_light", ""⟩)),
    edges := (List.range rows).flatMap (fun row => (List.range (cols - 1)).flatMap (fun col =>
        [⟨"e" ++ toString row ++ "_" ++ toString col ++ "_EB", gridNid row col,
           gridNid row (col+1), lanes, speed, 1, "", "", ""⟩,
         ⟨"e" ++ toString row ++ "_" ++ toString col ++ "_WB", gridNid row (col+1),
           gridNid row col, lanes, speed, 1, "", "", ""⟩]))
      ++ (List.range (rows - 1)).flatMap (fun row => (List.range cols).flatMap (fun col =>
        [⟨"e" ++ toString row ++ "_" ++ toString col ++ "_NB", gridNid row col,
           gridNid (row+1) col, lanes, speed, 1, "", "", ""⟩,
         ⟨"e" ++ toString row ++ "_" ++ toString col ++ "_SB", gridNid (row+1) col,
           gridNid row col, lanes, speed, 1, "", "", ""⟩])),
    connections := [],
    traffic_lights := if signalized then
      (List.range' 1 (rows - 1 - 1)).flatMap (fun row =>
        (List.range' 1 (cols - 1 - 1)).map (fun col =>
          ⟨gridNid row col,
            [⟨30, strRep 'G' (lanes*4) ++ strRep 'r' (lanes*4), 0, 0, ""⟩,
             ⟨3, strRep 'y' (lanes*4) ++ strRep 'r' (lanes*4), 0, 0, ""⟩,
             ⟨30, strRep 'r' (lanes*4) ++ strRep 'G' (lanes*4), 0, 0, ""⟩,
             ⟨3, strRep 'r' (lanes*4) ++ strRep 'y' (lanes*4), 0, 0, ""⟩],
            "static", "0", 0⟩))
      else [] }

/-- Template `Corridor.generate`. -/
def corridorGenerate (num_intersections : ℕ) (spacing : ℚ)
    (main_lanes cross_lanes : ℕ) (main_speed cross_speed : ℚ)
    (signalized : Bool) : NetworkGenerator :=
  let ms := kmh_to_ms main_speed
  let cs := kmh_to_ms cross_speed
  let cross_arm_length : ℚ := 150
  let N := num_intersections
  { nodes := (List.range (N + 2)).flatMap (fun i =>
      if i = 0 ∨ i = N + 1 then
        [⟨"M" ++ toString i, (i : ℚ) * spacing, 0, "priority", ""⟩]
      else
        [⟨"M" ++ toString i, (i : ℚ) * spacing, 0,
           if signalized then "traffic_light" else "priority", ""⟩,
         ⟨"N" ++ toString i, (i : ℚ) * spacing, cross_arm_length, "priority", ""⟩,
         ⟨"S" ++ toString i, (i : ℚ) * spacing, -cross_arm_length, "priority", ""⟩]),
    edges := (List.range (N + 1)).flatMap (fun i =>
        [⟨"main_" ++ toString i ++ "_EB", "M" ++ toString i, "M" ++ toString (i+1),
           main_lanes, ms, 1, "", "", ""⟩,
         ⟨"main_" ++ toString i ++ "_WB", "M" ++ toString (i+1), "M" ++ toString i,
           main_lanes, ms, 1, "", "", ""⟩])
      ++ (List.range' 1 N).flatMap (fun i =>
        [⟨"cross_" ++ toString i ++ "_NB", "S" ++ toString i, "M" ++ toString i,
           cross_lanes, cs, 1, "", "", ""⟩,
         ⟨"cross_" ++ toString i ++ "_NB2", "M" ++ toString i, "N" ++ toString i,
           cross_lanes, cs, 1, "", "", ""⟩,
         ⟨"cross_" ++ toString i ++ "_SB", "N" ++ toString i, "M" ++ toString i,
           cross_lanes, cs, 1, "", "", ""⟩,
         ⟨"cross_" ++ toString i ++ "_SB2", "M" ++ toString i, "S" ++ toString i,
           cross_lanes, cs, 1, "", "", ""⟩]),
    connections := [],
    traffic_lights := if signalized then
      (List.range' 1 N).map (fun i =>
        ⟨"M" ++ toString i,
          [⟨40, strRep 'G' (main_lanes*4) ++ strRep 'r' (cross_lanes*4), 0, 0, ""⟩,
           ⟨3, strRep 'y' (main_lanes*4) ++ strRep 'r' (cross_lanes*4), 0, 0, ""⟩,
           ⟨25, strRep 'r' (main_lanes*4) ++ strRep 'G' (cross_lanes*4), 0, 0, ""⟩,
           ⟨3, strRep 'r' (main_lanes*4) ++ strRep 'y' (cross_lanes*4), 0, 0, ""⟩],
          "static", "0", 0⟩)
      else [] }

/-- Name of the chain node preceding ramp junction `i` in
`Highway.generate` (`prev_node` of the accumulation loop). -/
def hwPrevName (i : ℕ) : String := if i = 0 then "start" else "junc_" ++ toString i

/-- Template `Highway.generate`. -/
def highwayGenerate (hwlen : ℚ) (lanes : ℕ) (speed_limit : ℚ)
    (num_ramps : ℕ) (ramp_lanes : ℕ) : NetworkGenerator :=
  let speed := kmh_to_ms speed_limit
  let ramp_speed := kmh_to_ms 60
  let ramp_spacing := hwlen / ((num_ramps : ℚ) + 1)
  { nodes := [⟨"start", 0, 0, "priority", ""⟩, ⟨"end", hwlen, 0, "priority", ""⟩]
      ++ (List.range' 1 num_ramps).flatMap (fun i =>
        [⟨"junc_" ++ toString i, (i : ℚ) * ramp_spacing, 0, "priority", ""⟩,
         ⟨"on_ramp_" ++ toString i, (i : ℚ) * ramp_spacing - 100, -100, "priority", ""⟩,
         ⟨"off_ramp_" ++ toString i, (i : ℚ) * ramp_spacing + 100, -100, "priority", ""⟩]),
    edges := (List.range' 1 num_ramps).map (fun i =>
        ⟨"hw_" ++ hwPrevName (i - 1) ++ "_junc_" ++ toString i, hwPrevName (i - 1),
          "junc_" ++ toString i, lanes, speed, 3, "", "", ""⟩)
      ++ [⟨"hw_" ++ hwPrevName num_ramps ++ "_end", hwPrevName num_ramps, "end",
           lanes, speed, 3, "", "", ""⟩]
      ++ (List.range' 1 num_ramps).flatMap (fun i =>
        [⟨"on_ramp_" ++ toString i, "on_ramp_" ++ toString i,
           "junc_" ++ toString i, ramp_lanes, ramp_speed, 1, "", "", ""⟩,
         ⟨"off_ramp_" ++ toString i, "junc_" ++ toString i,
           "off_ramp_" ++ toString i, ramp_lanes, ramp_speed, 1, "", "", ""⟩]),
    connections := [],
    traffic_lights := [] }

/-! ## Phase construction checks (Phase.__post_init__) -/

/-- Raw constructor arguments of a `Phase` before `__post_init__` runs. -/
structure PhaseSpec where
  duration : ℤ
  state : String
  min_dur : ℤ := 0
  max_dur : ℤ := 0
  name : String := ""
deriving Repr, DecidableEq

/-- Embedding of `Phase.__post_init__`: the checks run in source order and the
first failing check raises `ValueError`. -/
def phaseInit (s : PhaseSpec) : Except String Phase :=
  if s.duration ≤ 0 then Except.error "Phase duration must be a positive integer"
  else if s.state = "" then Except.error "Phase state must be a non-empty string"
  else if s.min_dur < 0 then Except.error "min_dur cannot be negative"
  else if s.max_dur < 0 then Except.error "max_dur cannot be negative"
  else if 0 < s.max_dur ∧ 0 < s.min_dur ∧ s.max_dur < s.min_dur then
    Except.error "min_dur cannot be greater than max_dur"
  else Except.ok ⟨s.duration, s.state, s.min_dur, s.max_dur, s.name⟩

/-- Fields that pass every `__post_init__` check of `Phase`. -/
def phaseValid (s : PhaseSpec) : Prop :=
  0 < s.duration ∧ s.state ≠ "" ∧ 0 ≤ s.min_dur ∧ 0 ≤ s.max_dur ∧
    (0 < s.max_dur → 0 < s.min_dur → s.min_dur ≤ s.max_dur)

instance (s : PhaseSpec) : Decidable (phaseValid s) := by
  unfold phaseValid
  infer_instance

/-- Building the phase list of a program: each `Phase(...)` constructor call
validates its own fields; nothing compares one phase against another. -/
def mkPhases : List PhaseSpec → Except String (List Phase)
  | [] => Except.ok []
  | s :: ss =>
    match phaseInit s with
    | Except.error e => Except.error e
    | Except.ok p =>
      match mkPhases ss with
      | Except.error e => Except.error e
      | Except.ok ps => Except.ok (p :: ps)

/-- Constructing a complete `TrafficLight` from raw phase arguments: the
dataclass itself performs no validation, so the only possible failures are
the per-phase field checks. -/
def mkTrafficLightChecked (id : String) (specs : List PhaseSpec)
    (tl_type program_id : String) (offset : ℤ) : Except String TrafficLight :=
  match mkPhases specs with
  | Except.error e => Except.error e
  | Except.ok ps => Except.ok ⟨id, ps, tl_type, program_id, offset⟩

/-! ## XML serialization layer (XMLGenerator and the to_xml methods)

An attribute list keeps the order of the Python `.set` calls; the renderer
mirrors `prettify` (minidom, indent 4) followed by `save`'s blank-line
removal: declaration line, one line per record, entities in list order.
`qStr` stands in for Python's `str()` on numbers; no verified property
depends on its exact text. -/

/-- Ordered attribute list of a serialized record. -/
abbrev Attrs := List (String × String)

/-- Numeric attribute rendering (stand-in for Python `str()`). -/
def qStr (q : ℚ) : String := toString q

/-- Childless XML element (a depth-2 record such as a phase line). -/
structure XmlLeaf where
  tag : String
  attrs : Attrs
deriving Repr, DecidableEq

/-- Depth-1 XML element, possibly with childless children. -/
structure XmlElem where
  tag : String
  attrs : Attrs
  children : List XmlLeaf
deriving Repr, DecidableEq

/-- Document root with its elements. -/
structure XmlDoc where
  tag : String
  children : List XmlElem
deriving Repr, DecidableEq

/-- Method `Node.to_xml_attrib`. -/
def nodeAttrs (n : Node) : Attrs :=
  [("id", n.id), ("x", qStr n.x), ("y", qStr n.y), ("type", n.node_type)]
  ++ (if n.node_type = "traffic_light" ∧ n.tl_type ≠ "" then [("tlType", n.tl_type)]
      else [])

/-- Method `Edge.to_xml_attrib`. -/
def edgeAttrs (e : Edge) : Attrs :=
  [("id", e.id), ("from", e.from_node), ("to", e.to_node),
   ("numLanes", toString e.num_lanes), ("speed", qStr e.speed),
   ("priority", toString e.priority)]
  ++ (if e.edge_type ≠ "" then [("type", e.edge_type)] else [])
  ++ (if e.allow ≠ "" then [("allow", e.allow)] else [])
  ++ (if e.disallow ≠ "" then [("disallow", e.disallow)] else [])

/-- Method `Connection.to_xml_attrib`. -/
def connectionAttrs (c : Connection) : Attrs :=
  [("from", c.from_edge), ("to", c.to_edge),
   ("fromLane", toString c.from_lane), ("toLane", toString c.to_lane)]

/-- Method `Phase.to_xml_attrib`. -/
def phaseAttrs (p : Phase) : Attrs :=
  [("duration", toString p.duration), ("state", p.state)]
  ++ (if 0 < p.min_dur then [("minDur", toString p.min_dur)] else [])
  ++ (if 0 < p.max_dur then [("maxDur", toString p.max_dur)] else [])
  ++ (if p.name ≠ "" then [("name", p.name)] else [])

/-- Method `TrafficLight.to_xml_element`. -/
def tlElem (tl : TrafficLight) : XmlElem :=
  ⟨"tlLogic",
    [("id", tl.id), ("type", tl.tl_type), ("programID", tl.program_id),
     ("offset", toString tl.offset)],
    tl.phases.map (fun p => ⟨"phase", phaseAttrs p⟩)⟩

/-- Node record element. -/
def nodeElem (n : Node) : XmlElem := ⟨"node", nodeAttrs n, []⟩

/-- Edge record element. -/
def edgeElem (e : Edge) : XmlElem := ⟨"edge", edgeAttrs e, []⟩

/-- Connection record element. -/
def connectionElem (c : Connection) : XmlElem := ⟨"connection", connectionAttrs c, []⟩

/-- Method `NetworkGenerator.generate_nodes_xml`. -/
def generate_nodes_xml (g : NetworkGenerator) : XmlDoc :=
  ⟨"nodes", g.nodes.map nodeElem⟩

/-- Method `NetworkGenerator.generate_edges_xml`. -/
def generate_edges_xml (g : NetworkGenerator) : XmlDoc :=
  ⟨"edges", g.edges.map edgeElem⟩

/-- Method `NetworkGenerator.generate_connections_xml`. -/
def generate_connections_xml (g : NetworkGenerator) : XmlDoc :=
  ⟨"connections", g.connections.map connectionElem⟩

/-- Method `NetworkGenerator.generate_tll_xml`. -/
def generate_tll_xml (g : NetworkGenerator) : XmlDoc :=
  ⟨"tlLogics", g.traffic_lights.map tlElem⟩

/-- Text of an attribute list. -/
def renderAttrs (attrs : Attrs) : String :=
  String.join (attrs.map (fun kv => " " ++ kv.1 ++ "=\"" ++ kv.2 ++ "\""))

/-- One childless record line at nesting depth 2. -/
def renderLeaf (l : XmlLeaf) : String :=
  "        <" ++ l.tag ++ renderAttrs l.attrs ++ "/>\n"

/-- One record at nesting depth 1, self-closing when childless. -/
def renderElem (e : XmlElem) : String :=
  if e.children.isEmpty then "    <" ++ e.tag ++ renderAttrs e.attrs ++ "/>\n"
  else "    <" ++ e.tag ++ renderAttrs e.attrs ++ ">\n"
    ++ String.join (e.children.map renderLeaf)
    ++ "    </" ++ e.tag ++ ">\n"

/-- Embedding of `XMLGenerator.prettify` + `save`: document bytes. -/
def renderDoc (d : XmlDoc) : String :=
  "<?xml version=\"1.0\" ?>\n<" ++ d.tag ++ ">\n"
  ++ String.join (d.children.map renderElem)
  ++ "</" ++ d.tag ++ ">"

/-- Method `NetworkGenerator.save_all`: the (file name, file bytes) pairs
written, in write order; the connection and signal files only when their
entity lists are non-empty. -/
def save_all (g : NetworkGenerator) (nm : String) : List (String × String) :=
  [(nm ++ ".nod.xml", renderDoc (generate_nodes_xml g)),
   (nm ++ ".edg.xml", renderDoc (generate_edges_xml g))]
  ++ (if g.connections.isEmpty then [] else
      [(nm ++ ".con.xml", renderDoc (generate_connections_xml g))])
  ++ (if g.traffic_lights.isEmpty then [] else
      [(nm ++ ".tll.xml", renderDoc (generate_tll_xml g))])

/-! ## Flow serialization (Flow.to_xml_element) -/

/-- Demand-rate attribute names a flow record may carry. -/
def demandKeys : List String := ["vehsPerHour", "probability", "period", "number"]

/-- Demand-rate ladder of `Flow.to_xml_element`: `if vehs_per_hour > 0 elif
probability > 0 elif period > 0 elif number > 0`; nothing is emitted when no
field is positive. -/
def flowDemandAttrs (f : Flow) : Attrs :=
  if 0 < f.vehs_per_hour then [("vehsPerHour", qStr f.vehs_per_hour)]
  else if 0 < f.probability then [("probability", qStr f.probability)]
  else if 0 < f.period then [("period", qStr f.period)]
  else if 0 < f.number then [("number", toString f.number)]
  else []

/-- Method `Flow.to_xml_element`: attribute list of the flow record (the
`route` reference suppresses `from`/`to`; empty strings are falsy). -/
def flowAttrs (f : Flow) : Attrs :=
  [("id", f.id), ("type", f.vtype), ("begin", qStr f.begin_t), ("end", qStr f.end_t)]
  ++ (if f.route_id ≠ "" then [("route", f.route_id)]
      else (if f.from_edge ≠ "" then [("from", f.from_edge)] else [])
        ++ (if f.to_edge ≠ "" then [("to", f.to_edge)] else []))
  ++ flowDemandAttrs f

/-! ### Helper lemmas for the offset chain -/

theorem offsetsFrom_length (cycle speed : ℚ) :
    ∀ (ds : List ℚ) (prev : ℚ), (offsetsFrom cycle speed prev ds).length = ds.length := by
  intro ds
  induction ds with
  | nil => intro prev; rfl
  | cons d ds ih =>
    intro prev
    simp [offsetsFrom, ih]

theorem offsetsFrom_getD (cycle speed : ℚ) :
    ∀ (ds : List ℚ) (prev : ℚ) (i : ℕ), i < ds.length →
      (prev :: offsetsFrom cycle speed prev ds).getD (i + 1) 0 =
        pymod ((prev :: offsetsFrom cycle speed prev ds).getD i 0 + ds.getD i 0 / speed)
          cycle := by
  intro ds
  induction ds with
  | nil => intro prev i hi; simp at hi
  | cons d ds ih =>
    intro prev i hi
    cases i with
    | zero => simp [offsetsFrom]
    | succ j =>
      have hj : j < ds.length := by simpa using hi
      have := ih (pymod (prev + d / speed) cycle) j hj
      simpa [offsetsFrom] using this

theorem offsetsFrom_bounds (cycle speed : ℚ) (hc : 0 < cycle) :
    ∀ (ds : List ℚ) (prev : ℚ), ∀ o ∈ offsetsFrom cycle speed prev ds, 0 ≤ o ∧ o < cycle := by
  intro ds
  induction ds with
  | nil => intro prev o ho; simp [offsetsFrom] at ho
  | cons d ds ih =>
    intro prev o ho
    simp only [offsetsFrom, List.mem_cons] at ho
    rcases ho with rfl | ho
    · exact ⟨pymod_nonneg _ hc, pymod_lt _ hc⟩
    · exact ih _ o ho

/-! ### Helper lemma for the green-split loop -/

theorem greensOf_ok (Y eff : ℚ) (hY : Y ≠ 0) :
    ∀ ys : List ℚ, greensOf Y eff ys = Except.ok (ys.map (fun y => y / Y * eff)) := by
  intro ys
  induction ys with
  | nil => rfl
  | cons y ys ih => simp [greensOf, hY, ih]

/-! ## Claim theorems: Webster and offsets -/

/-- C1: the library function `calculate_webster_cycle` fails (with the typed
`ValueError` realizing the spec's `OversaturatedError`) exactly when
`Y = sum(critical_ratios) ≥ 1`, and for `Y < 1` returns the finite value
`(1.5·L + 5) / (1 − Y)` with no division by zero.  However the signal-designer
path (`show_signal_designer` in src/app.py) has no such guard: at the failing
input `ys = [3/5, 3/5]` (so `Y = 1.2 ≥ 1`), it does not fail — it silently
clamps the negative raw cycle to 30 s and reports green times of 12 s,
contradicting the claim that `Y ≥ 1` always yields a typed failure. -/
theorem C1_webster_oversaturation :
    (∀ (ys : List ℚ) (L : ℚ),
      (calculate_webster_cycle ys L = Except.error websterErrMsg ↔ 1 ≤ ys.sum) ∧
      (calculate_webster_cycle ys L = Except.ok ((3/2 * L + 5) / (1 - ys.sum)) ↔
        ys.sum < 1)) ∧
    calculate_webster_cycle [3/5, 3/5] 6 = Except.error websterErrMsg ∧
    websterOptimize [3/5, 3/5] 6 = Except.ok (30, [12, 12]) := by
  refine ⟨?_, by norm_num [calculate_webster_cycle], by norm_num [websterOptimize, greensOf]⟩
  intro ys L
  unfold calculate_webster_cycle
  by_cases h : 1 ≤ ys.sum
  · constructor
    · simp [h]
    · simp [h, not_lt.mpr h]
  · constructor
    · simp [h]
    · simp [h, lt_of_not_ge h]

/-- C2: for `0 < Y < 1` the signal-designer Webster optimizer returns the
cycle `C = (1.5·L + 5)/(1 − Y)` clamped into [30, 180] via
`max(30, min(C_opt, 180))`, and green times `(y_i / Y) · (C − L)`; any
returned cycle lies in the band [30, 180]; in particular for
`ys = [0.3, 0.3]` and `L = 6` it returns `C = 35` and greens of 14.5 s each.
(The all-zero case `Y = 0` is outside the claim's domain: there the claimed
formula `y_i / Y` is undefined and the code raises `ZeroDivisionError`.) -/
theorem C2_webster_optimizer (ys : List ℚ) (L : ℚ) (h0 : 0 < ys.sum) (h1 : ys.sum < 1) :
    websterOptimize ys L =
      Except.ok (max 30 (min ((3/2 * L + 5) / (1 - ys.sum)) 180),
        ys.map (fun y =>
          y / ys.sum * (max 30 (min ((3/2 * L + 5) / (1 - ys.sum)) 180) - L))) ∧
    (∀ C gs, websterOptimize ys L = Except.ok (C, gs) → 30 ≤ C ∧ C ≤ 180) ∧
    websterOptimize [3/10, 3/10] 6 = Except.ok (35, [29/2, 29/2]) := by
  have hY1 : ys.sum ≠ 1 := ne_of_lt h1
  have hY0 : ys.sum ≠ 0 := ne_of_gt h0
  have hmain : websterOptimize ys L =
      Except.ok (max 30 (min ((3/2 * L + 5) / (1 - ys.sum)) 180),
        ys.map (fun y =>
          y / ys.sum * (max 30 (min ((3/2 * L + 5) / (1 - ys.sum)) 180) - L))) := by
    unfold websterOptimize
    simp [hY1, greensOf_ok _ _ hY0]
  refine ⟨hmain, ?_, by norm_num [websterOptimize, greensOf]⟩
  intro C gs hC
  rw [hmain] at hC
  have hpair := Except.ok.inj hC
  have hCeq : C = max 30 (min ((3/2 * L + 5) / (1 - ys.sum)) 180) := by
    simpa using (congrArg Prod.fst hpair).symm
  constructor
  · rw [hCeq]; exact le_max_left _ _
  · rw [hCeq]
    exact max_le (by norm_num) (min_le_right _ _)

/-- C2 witness: the concrete spec example evaluated through the theorem. -/
theorem C2_webster_optimizer_witness :
    websterOptimize [3/10, 3/10] 6 = Except.ok (35, [29/2, 29/2]) :=
  (C2_webster_optimizer [3/10, 3/10] 6 (by norm_num) (by norm_num)).2.2

/-- C3: the corridor offset computation returns `offset[0] = 0` and
`offset[i] = (offset[i-1] + d[i-1]/v) mod C` for every `1 ≤ i ≤ |d|`
(one offset per signal, `|d| + 1` in total); every returned offset lies in
`[0, C)`; and for `C = 60`, `v = 10`, `d = [300, 300]` the offsets are
`[0, 30, 0]`. -/
theorem C3_green_wave_offsets (cycle speed : ℚ) (ds : List ℚ)
    (hv : 0 < speed) (hc : 0 < cycle) :
    (greenWaveOffsets cycle speed ds).getD 0 0 = 0 ∧
    (∀ i < ds.length,
      (greenWaveOffsets cycle speed ds).getD (i + 1) 0 =
        pymod ((greenWaveOffsets cycle speed ds).getD i 0 + ds.getD i 0 / speed) cycle) ∧
    (∀ o ∈ greenWaveOffsets cycle speed ds, 0 ≤ o ∧ o < cycle) ∧
    (greenWaveOffsets cycle speed ds).length = ds.length + 1 ∧
    greenWaveOffsets 60 10 [300, 300] = [0, 30, 0] := by
  refine ⟨rfl, ?_, ?_, ?_, by norm_num [greenWaveOffsets, offsetsFrom, pymod]⟩
  · intro i hi
    exact offsetsFrom_getD cycle speed ds 0 i hi
  · intro o ho
    simp only [greenWaveOffsets, List.mem_cons] at ho
    rcases ho with rfl | ho
    · exact ⟨le_refl 0, hc⟩
    · exact offsetsFrom_bounds cycle speed hc ds 0 o ho
  · simp [greenWaveOffsets, offsetsFrom_length]

/-- C3 witness: the theorem applied at the concrete spec example. -/
theorem C3_green_wave_offsets_witness :
    greenWaveOffsets 60 10 [300, 300] = [0, 30, 0] :=
  (C3_green_wave_offsets 60 10 [300, 300] (by norm_num) (by norm_num)).2.2.2.2

/-! ### Helper lemmas: endpoints of generated edges resolve to generated nodes -/

theorem fourWay_edges_resolve (a : ℚ) (n : ℕ) (s : ℚ) (st : String) (g1 g2 yt : ℤ) :
    ∀ e ∈ (fourWayGenerate a n s st g1 g2 yt).edges,
      e.from_node ∈ nodeIds (fourWayGenerate a n s st g1 g2 yt) ∧
      e.to_node ∈ nodeIds (fourWayGenerate a n s st g1 g2 yt) := by
  intro e he
  simp only [fourWayGenerate, List.mem_map] at he
  obtain ⟨t, ht, rfl⟩ := he
  fin_cases ht <;> simp [nodeIds, fourWayGenerate]

theorem threeWay_edges_resolve (a : ℚ) (n : ℕ) (s : ℚ) (hs : Bool) :
    ∀ e ∈ (threeWayGenerate a n s hs).edges,
      e.from_node ∈ nodeIds (threeWayGenerate a n s hs) ∧
      e.to_node ∈ nodeIds (threeWayGenerate a n s hs) := by
  intro e he
  simp only [threeWayGenerate, List.mem_map] at he
  obtain ⟨t, ht, rfl⟩ := he
  fin_cases ht <;> simp [nodeIds, threeWayGenerate]

theorem roundabout_mem_R (cosD sinD : ℚ → ℚ) (K : ℕ) (radius armlen : ℚ)
    (la lr : ℕ) (sl : ℚ) (i : ℕ) (hi : i < K) :
    "R" ++ toString i ∈ nodeIds (roundaboutGenerate cosD sinD K radius armlen la lr sl) := by
  simp only [nodeIds, roundaboutGenerate, List.map_append, List.mem_append, List.map_map,
    List.mem_map, Function.comp, List.mem_range]
  exact Or.inl ⟨i, hi, rfl⟩

theorem roundabout_mem_A (cosD sinD : ℚ → ℚ) (K : ℕ) (radius armlen : ℚ)
    (la lr : ℕ) (sl : ℚ) (i : ℕ) (hi : i < K) :
    "A" ++ toString i ∈ nodeIds (roundaboutGenerate cosD sinD K radius armlen la lr sl) := by
  simp only [nodeIds, roundaboutGenerate, List.map_append, List.mem_append, List.map_map,
    List.mem_map, Function.comp, List.mem_range]
  exact Or.inr ⟨i, hi, rfl⟩

theorem roundabout_edges_resolve (cosD sinD : ℚ → ℚ) (K : ℕ) (hK : 0 < K)
    (radius armlen : ℚ) (la lr : ℕ) (sl : ℚ) :
    ∀ e ∈ (roundaboutGenerate cosD sinD K radius armlen la lr sl).edges,
      e.from_node ∈ nodeIds (roundaboutGenerate cosD sinD K radius armlen la lr sl) ∧
      e.to_node ∈ nodeIds (roundaboutGenerate cosD sinD K radius armlen la lr sl) := by
  intro e he
  simp only [roundaboutGenerate, List.mem_append, List.mem_map, List.mem_flatMap,
    List.mem_range, List.mem_cons, List.not_mem_nil, or_false] at he
  rcases he with ⟨i, hi, rfl⟩ | ⟨i, hi, h⟩
  · exact ⟨roundabout_mem_R cosD sinD K radius armlen la lr sl i hi,
      roundabout_mem_R cosD sinD K radius armlen la lr sl _ (Nat.mod_lt _ hK)⟩
  · rcases h with rfl | rfl
    · exact ⟨roundabout_mem_A cosD sinD K radius armlen la lr sl i hi,
        roundabout_mem_R cosD sinD K radius armlen la lr sl i hi⟩
    · exact ⟨roundabout_mem_R cosD sinD K radius armlen la lr sl i hi,
        roundabout_mem_A cosD sinD K radius armlen la lr sl i hi⟩

theorem grid_nid_mem (rows cols : ℕ) (bl : ℚ) (lanes : ℕ) (sl : ℚ) (sig : Bool)
    (r c : ℕ) (hr : r < rows) (hc : c < cols) :
    gridNid r c ∈ nodeIds (gridGenerate rows cols bl lanes sl sig) := by
  have h1 : (⟨gridNid r c, (c : ℚ) * bl, (r : ℚ) * bl,
      if (r = 0 ∨ r = rows - 1 ∨ c = 0 ∨ c = cols - 1) ∨ sig = false
      then "priority" else "traffic_light", ""⟩ : Node) ∈
      (gridGenerate rows cols bl lanes sl sig).nodes := by
    unfold gridGenerate
    exact List.mem_flatMap.mpr ⟨r, List.mem_range.mpr hr,
      List.mem_map_of_mem _ (List.mem_range.mpr hc)⟩
  exact List.mem_map_of_mem Node.id h1

theorem grid_edges_resolve (rows cols : ℕ) (bl : ℚ) (lanes : ℕ) (sl : ℚ) (sig : Bool) :
    ∀ e ∈ (gridGenerate rows cols bl lanes sl sig).edges,
      e.from_node ∈ nodeIds (gridGenerate rows cols bl lanes sl sig) ∧
      e.to_node ∈ nodeIds (gridGenerate rows cols bl lanes sl sig) := by
  intro e he
  simp only [gridGenerate, List.mem_append, List.mem_flatMap, List.mem_range,
    List.mem_cons, List.not_mem_nil, or_false] at he
  rcases he with ⟨row, hrow, col, hcol, h⟩ | ⟨row, hrow, col, hcol, h⟩
  · rcases h with rfl | rfl
    · exact ⟨grid_nid_mem rows cols bl lanes sl sig row col hrow (by omega),
        grid_nid_mem rows cols bl lanes sl sig row (col+1) hrow (by omega)⟩
    · exact ⟨grid_nid_mem rows cols bl lanes sl sig row (col+1) hrow (by omega),
        grid_nid_mem rows cols bl lanes sl sig row col hrow (by omega)⟩
  · rcases h with rfl | rfl
    · exact ⟨grid_nid_mem rows cols bl lanes sl sig row col (by omega) hcol,
        grid_nid_mem rows cols bl lanes sl sig (row+1) col (by omega) hcol⟩
    · exact ⟨grid_nid_mem rows cols bl lanes sl sig (row+1) col (by omega) hcol,
        grid_nid_mem rows cols bl lanes sl sig row col (by omega) hcol⟩

theorem corridor_M_mem (N : ℕ) (sp : ℚ) (ml cl : ℕ) (msp csp : ℚ) (sig : Bool)
    (i : ℕ) (hi : i < N + 2) :
    "M" ++ toString i ∈ nodeIds (corridorGenerate N sp ml cl msp csp sig) := by
  unfold nodeIds corridorGenerate
  refine List.mem_map.mpr ?_
  by_cases h : i = 0 ∨ i = N + 1
  · exact ⟨⟨"M" ++ toString i, (i : ℚ) * sp, 0, "priority", ""⟩,
      List.mem_flatMap.mpr ⟨i, List.mem_range.mpr hi, by rw [if_pos h]; simp⟩, rfl⟩
  · exact ⟨⟨"M" ++ toString i, (i : ℚ) * sp, 0,
        if sig then "traffic_light" else "priority", ""⟩,
      List.mem_flatMap.mpr ⟨i, List.mem_range.mpr hi, by rw [if_neg h]; simp⟩, rfl⟩

theorem corridor_N_mem (N : ℕ) (sp : ℚ) (ml cl : ℕ) (msp csp : ℚ) (sig : Bool)
    (i : ℕ) (h1 : 1 ≤ i) (h2 : i ≤ N) :
    "N" ++ toString i ∈ nodeIds (corridorGenerate N sp ml cl msp csp sig) := by
  unfold nodeIds corridorGenerate
  refine List.mem_map.mpr
    ⟨⟨"N" ++ toString i, (i : ℚ) * sp, 150, "priority", ""⟩,
      List.mem_flatMap.mpr ⟨i, List.mem_range.mpr (by omega), ?_⟩, rfl⟩
  rw [if_neg (by omega)]
  simp

theorem corridor_S_mem (N : ℕ) (sp : ℚ) (ml cl : ℕ) (msp csp : ℚ) (sig : Bool)
    (i : ℕ) (h1 : 1 ≤ i) (h2 : i ≤ N) :
    "S" ++ toString i ∈ nodeIds (corridorGenerate N sp ml cl msp csp sig) := by
  unfold nodeIds corridorGenerate
  refine List.mem_map.mpr
    ⟨⟨"S" ++ toString i, (i : ℚ) * sp, -150, "priority", ""⟩,
      List.mem_flatMap.mpr ⟨i, List.mem_range.mpr (by omega), ?_⟩, rfl⟩
  rw [if_neg (by omega)]
  simp

theorem corridor_edges_resolve (N : ℕ) (sp : ℚ) (ml cl : ℕ) (msp csp : ℚ) (sig : Bool) :
    ∀ e ∈ (corridorGenerate N sp ml cl msp csp sig).edges,
      e.from_node ∈ nodeIds (corridorGenerate N sp ml cl msp csp sig) ∧
      e.to_node ∈ nodeIds (corridorGenerate N sp ml cl msp csp sig) := by
  intro e he
  simp only [corridorGenerate, List.mem_append, List.mem_flatMap, List.mem_range,
    List.mem_range'_1, List.mem_cons, List.not_mem_nil, or_false] at he
  rcases he with ⟨i, hi, h⟩ | ⟨i, ⟨hi1, hi2⟩, h⟩
  · rcases h with rfl | rfl
    · exact ⟨corridor_M_mem N sp ml cl msp csp sig i (by omega),
        corridor_M_mem N sp ml cl msp csp sig (i+1) (by omega)⟩
    · exact ⟨corridor_M_mem N sp ml cl msp csp sig (i+1) (by omega),
        corridor_M_mem N sp ml cl msp csp sig i (by omega)⟩
  · rcases h with rfl | rfl | rfl | rfl
    · exact ⟨corridor_S_mem N sp ml cl msp csp sig i hi1 (by omega),
        corridor_M_mem N sp ml cl msp csp sig i (by omega)⟩
    · exact ⟨corridor_M_mem N sp ml cl msp csp sig i (by omega),
        corridor_N_mem N sp ml cl msp csp sig i hi1 (by omega)⟩
    · exact ⟨corridor_N_mem N sp ml cl msp csp sig i hi1 (by omega),
        corridor_M_mem N sp ml cl msp csp sig i (by omega)⟩
    · exact ⟨corridor_M_mem N sp ml cl msp csp sig i (by omega),
        corridor_S_mem N sp ml cl msp csp sig i hi1 (by omega)⟩

theorem highway_mem_junc (hwlen : ℚ) (lanes : ℕ) (sl : ℚ) (R rl : ℕ)
    (j : ℕ) (h1 : 1 ≤ j) (h2 : j ≤ R) :
    "junc_" ++ toString j ∈ nodeIds (highwayGenerate hwlen lanes sl R rl) := by
  unfold nodeIds highwayGenerate
  refine List.mem_map.mpr
    ⟨⟨"junc_" ++ toString j, (j : ℚ) * (hwlen / ((R : ℚ) + 1)), 0, "priority", ""⟩,
      ?_, rfl⟩
  refine List.mem_append_right _ (List.mem_flatMap.mpr
    ⟨j, List.mem_range'_1.mpr ⟨by omega, by omega⟩, ?_⟩)
  simp

theorem highway_mem_prev (hwlen : ℚ) (lanes : ℕ) (sl : ℚ) (R rl : ℕ)
    (j : ℕ) (hj : j ≤ R) :
    hwPrevName j ∈ nodeIds (highwayGenerate hwlen lanes sl R rl) := by
  unfold hwPrevName
  by_cases h0 : j = 0
  · rw [if_pos h0]
    unfold nodeIds highwayGenerate
    simp
  · rw [if_neg h0]
    exact highway_mem_junc hwlen lanes sl R rl j (by omega) hj

theorem highway_mem_onramp (hwlen : ℚ) (lanes : ℕ) (sl : ℚ) (R rl : ℕ)
    (i : ℕ) (h1 : 1 ≤ i) (h2 : i ≤ R) :
    "on_ramp_" ++ toString i ∈ nodeIds (highwayGenerate hwlen lanes sl R rl) := by
  unfold nodeIds highwayGenerate
  refine List.mem_map.mpr
    ⟨⟨"on_ramp_" ++ toString i, (i : ℚ) * (hwlen / ((R : ℚ) + 1)) - 100, -100,
      "priority", ""⟩, ?_, rfl⟩
  refine List.mem_append_right _ (List.mem_flatMap.mpr
    ⟨i, List.mem_range'_1.mpr ⟨by omega, by omega⟩, ?_⟩)
  simp

theorem highway_mem_offramp (hwlen : ℚ) (lanes : ℕ) (sl : ℚ) (R rl : ℕ)
    (i : ℕ) (h1 : 1 ≤ i) (h2 : i ≤ R) :
    "off_ramp_" ++ toString i ∈ nodeIds (highwayGenerate hwlen lanes sl R rl) := by
  unfold nodeIds highwayGenerate
  refine List.mem_map.mpr
    ⟨⟨"off_ramp_" ++ toString i, (i : ℚ) * (hwlen / ((R : ℚ) + 1)) + 100, -100,
      "priority", ""⟩, ?_, rfl⟩
  refine List.mem_append_right _ (List.mem_flatMap.mpr
    ⟨i, List.mem_range'_1.mpr ⟨by omega, by omega⟩, ?_⟩)
  simp

theorem highway_mem_end (hwlen : ℚ) (lanes : ℕ) (sl : ℚ) (R rl : ℕ) :
    "end" ∈ nodeIds (highwayGenerate hwlen lanes sl R rl) := by
  unfold nodeIds highwayGenerate
  simp

theorem highway_edges_resolve (hwlen : ℚ) (lanes : ℕ) (sl : ℚ) (R rl : ℕ) :
    ∀ e ∈ (highwayGenerate hwlen lanes sl R rl).edges,
      e.from_node ∈ nodeIds (highwayGenerate hwlen lanes sl R rl) ∧
      e.to_node ∈ nodeIds (highwayGenerate hwlen lanes sl R rl) := by
  intro e he
  simp only [highwayGenerate, List.mem_append, List.mem_map, List.mem_flatMap,
    List.mem_range'_1, List.mem_cons, List.not_mem_nil, or_false] at he
  rcases he with (⟨i, ⟨hi1, hi2⟩, rfl⟩ | rfl) | ⟨i, ⟨hi1, hi2⟩, h⟩
  · exact ⟨highway_mem_prev hwlen lanes sl R rl (i-1) (by omega),
      highway_mem_junc hwlen lanes sl R rl i hi1 (by omega)⟩
  · exact ⟨highway_mem_prev hwlen lanes sl R rl R (le_refl R),
      highway_mem_end hwlen lanes sl R rl⟩
  · rcases h with rfl | rfl
    · exact ⟨highway_mem_onramp hwlen lanes sl R rl i hi1 (by omega),
        highway_mem_junc hwlen lanes sl R rl i hi1 (by omega)⟩
    · exact ⟨highway_mem_junc hwlen lanes sl R rl i hi1 (by omega),
        highway_mem_offramp hwlen lanes sl R rl i hi1 (by omega)⟩

/-- C7: for every one of the six topology templates and every valid parameter
assignment, every generated Edge's from-node and to-node ids resolve to Nodes
created by the same generate call.  The roundabout needs `2 ≤ num_arms`: with
one arm the source raises a `ValueError` while constructing the self-loop ring
edge (and with zero arms it divides by zero computing the angles), so no
network is generated at all. -/
theorem C7_all_templates_no_dangling
    (al : ℚ) (lpa : ℕ) (spl : ℚ) (sty : String) (g1 g2 yt : ℤ)
    (al3 : ℚ) (lpa3 : ℕ) (spl3 : ℚ) (hs3 : Bool)
    (cosD sinD : ℚ → ℚ) (K : ℕ) (rad armlen : ℚ) (rla rlb : ℕ) (rsl : ℚ)
    (rows cols : ℕ) (bl : ℚ) (gla : ℕ) (gsl : ℚ) (gsig : Bool)
    (N : ℕ) (sp : ℚ) (ml cl : ℕ) (msp csp : ℚ) (csig : Bool)
    (hwlen : ℚ) (hla : ℕ) (hsl : ℚ) (R rl : ℕ)
    (hK : 2 ≤ K) :
    (∀ e ∈ (fourWayGenerate al lpa spl sty g1 g2 yt).edges,
       e.from_node ∈ nodeIds (fourWayGenerate al lpa spl sty g1 g2 yt) ∧
       e.to_node ∈ nodeIds (fourWayGenerate al lpa spl sty g1 g2 yt)) ∧
    (∀ e ∈ (threeWayGenerate al3 lpa3 spl3 hs3).edges,
       e.from_node ∈ nodeIds (threeWayGenerate al3 lpa3 spl3 hs3) ∧
       e.to_node ∈ nodeIds (threeWayGenerate al3 lpa3 spl3 hs3)) ∧
    (∀ e ∈ (roundaboutGenerate cosD sinD K rad armlen rla rlb rsl).edges,
       e.from_node ∈ nodeIds (roundaboutGenerate cosD sinD K rad armlen rla rlb rsl) ∧
       e.to_node ∈ nodeIds (roundaboutGenerate cosD sinD K rad armlen rla rlb rsl)) ∧
    (∀ e ∈ (gridGenerate rows cols bl gla gsl gsig).edges,
       e.from_node ∈ nodeIds (gridGenerate rows cols bl gla gsl gsig) ∧
       e.to_node ∈ nodeIds (gridGenerate rows cols bl gla gsl gsig)) ∧
    (∀ e ∈ (corridorGenerate N sp ml cl msp csp csig).edges,
       e.from_node ∈ nodeIds (corridorGenerate N sp ml cl msp csp csig) ∧
       e.to_node ∈ nodeIds (corridorGenerate N sp ml cl msp csp csig)) ∧
    (∀ e ∈ (highwayGenerate hwlen hla hsl R rl).edges,
       e.from_node ∈ nodeIds (highwayGenerate hwlen hla hsl R rl) ∧
       e.to_node ∈ nodeIds (highwayGenerate hwlen hla hsl R rl)) :=
  ⟨fourWay_edges_resolve al lpa spl sty g1 g2 yt,
   threeWay_edges_resolve al3 lpa3 spl3 hs3,
   roundabout_edges_resolve cosD sinD K (by omega) rad armlen rla rlb rsl,
   grid_edges_resolve rows cols bl gla gsl gsig,
   corridor_edges_resolve N sp ml cl msp csp csig,
   highway_edges_resolve hwlen hla hsl R rl⟩

/-- C7 witness: the default 4-arm roundabout's first ring edge (R0 → R1)
exists and both its endpoints resolve, via the theorem at the template
defaults (and dummy cosine/sine arguments, on which nothing depends). -/
theorem C7_all_templates_no_dangling_witness :
    (Edge.mk ("R" ++ toString 0 ++ "2R" ++ toString ((0+1) % 4)) ("R" ++ toString 0)
        ("R" ++ toString ((0+1) % 4)) 2 (kmh_to_ms 30) 1 "" "" "") ∈
      (roundaboutGenerate (fun _ => 0) (fun _ => 0) 4 30 200 1 2 30).edges ∧
    "R" ++ toString 0 ∈
      nodeIds (roundaboutGenerate (fun _ => 0) (fun _ => 0) 4 30 200 1 2 30) ∧
    "R" ++ toString ((0+1) % 4) ∈
      nodeIds (roundaboutGenerate (fun _ => 0) (fun _ => 0) 4 30 200 1 2 30) := by
  have hmem : (Edge.mk ("R" ++ toString 0 ++ "2R" ++ toString ((0+1) % 4))
      ("R" ++ toString 0) ("R" ++ toString ((0+1) % 4)) 2 (kmh_to_ms 30) 1 "" "" "") ∈
      (roundaboutGenerate (fun _ => 0) (fun _ => 0) 4 30 200 1 2 30).edges := by
    unfold roundaboutGenerate
    exact List.mem_append_left _ (List.mem_map_of_mem _ (by decide))
  have h := C7_all_templates_no_dangling 200 2 50 "static" 30 30 3 200 2 50 true
    (fun _ => 0) (fun _ => 0) 4 30 200 1 2 30 3 3 200 2 50 true 5 300 3 2 60 40 true
    2000 3 100 2 1 (by norm_num)
  exact ⟨hmem, (h.2.2.1 _ hmem).1, (h.2.2.1 _ hmem).2⟩

/-- C4 (amended): in the four-way and grid signalized templates every phase's
state-string length is `2 × lanesPerApproach × 4` and therefore identical
across all phases of a program; in the corridor template every phase's length
is `2 × (2·mainLanes + 2·crossLanes)` — the per-approach sum, which equals the
claimed `2 × lanesPerApproach × 4` only when `mainLanes = crossLanes` — and is
likewise identical across all phases. -/
theorem C4_phase_state_lengths
    (al : ℚ) (lpa : ℕ) (spl : ℚ) (sty : String) (g1 g2 yt : ℤ)
    (rows cols : ℕ) (bl : ℚ) (gla : ℕ) (gsl : ℚ) (gsig : Bool)
    (N : ℕ) (sp : ℚ) (ml cl : ℕ) (msp csp : ℚ) (csig : Bool) :
    (∀ tl ∈ (fourWayGenerate al lpa spl sty g1 g2 yt).traffic_lights,
       ∀ p ∈ tl.phases, p.state.length = 2 * lpa * 4) ∧
    (∀ tl ∈ (gridGenerate rows cols bl gla gsl gsig).traffic_lights,
       ∀ p ∈ tl.phases, p.state.length = 2 * gla * 4) ∧
    (∀ tl ∈ (corridorGenerate N sp ml cl msp csp csig).traffic_lights,
       ∀ p ∈ tl.phases, p.state.length = 2 * (2 * ml + 2 * cl)) := by
  refine ⟨?_, ?_, ?_⟩
  · intro tl htl
    simp only [fourWayGenerate, List.mem_singleton] at htl
    subst htl
    intro p hp
    fin_cases hp <;> simp [strRep_length, String.length_append] <;> omega
  · intro tl htl
    cases gsig with
    | false => simp [gridGenerate] at htl
    | true =>
      simp only [gridGenerate, if_true, List.mem_flatMap, List.mem_map] at htl
      obtain ⟨row, hr, col, hc, rfl⟩ := htl
      intro p hp
      fin_cases hp <;> simp [strRep_length, String.length_append] <;> omega
  · intro tl htl
    cases csig with
    | false => simp [corridorGenerate] at htl
    | true =>
      simp only [corridorGenerate, if_true, List.mem_map] at htl
      obtain ⟨i, hi, rfl⟩ := htl
      intro p hp
      fin_cases hp <;> simp [strRep_length, String.length_append] <;> omega

/-- C4 witness: the first phase of the default four-way intersection's signal
program has state-string length `2 × 2 × 4 = 16`, via the theorem at the
template defaults. -/
theorem C4_phase_state_lengths_witness :
    ((((fourWayGenerate 200 2 50 "static" 30 30 3).traffic_lights.getD 0
        ⟨"", [], "static", "0", 0⟩).phases.getD 0
          ⟨1, "", 0, 0, ""⟩).state).length = 2 * 2 * 4 := by
  have h := (C4_phase_state_lengths 200 2 50 "static" 30 30 3
    3 3 200 2 50 true 5 300 3 2 60 40 true).1
  exact h ((fourWayGenerate 200 2 50 "static" 30 30 3).traffic_lights.getD 0
      ⟨"", [], "static", "0", 0⟩) (by decide)
    (((fourWayGenerate 200 2 50 "static" 30 30 3).traffic_lights.getD 0
      ⟨"", [], "static", "0", 0⟩).phases.getD 0 ⟨1, "", 0, 0, ""⟩) (by decide)

/-- C4 counterexample: in the corridor template with its default parameters
(`main_lanes = 3`, `cross_lanes = 2`), the first signal program's first phase
has a state string of length 20, which equals neither `2 × 3 × 4 = 24` nor
`2 × 2 × 4 = 16`: no single per-approach lane count satisfies the claimed
uniform formula at this junction. -/
theorem C4_corridor_counterexample :
    (((corridorGenerate 5 300 3 2 60 40 true).traffic_lights.getD 0
        ⟨"", [], "static", "0", 0⟩).phases.getD 0 ⟨1, "", 0, 0, ""⟩).state.length = 20 ∧
    (20 : ℕ) ≠ 2 * 3 * 4 ∧ (20 : ℕ) ≠ 2 * 2 * 4 := by
  refine ⟨by decide, by norm_num, by norm_num⟩

/-! ### Helper lemmas for phase construction -/

theorem phaseInit_valid (s : PhaseSpec) (hv : phaseValid s) :
    phaseInit s = Except.ok ⟨s.duration, s.state, s.min_dur, s.max_dur, s.name⟩ := by
  obtain ⟨hd, hs, hm, hx, ho⟩ := hv
  unfold phaseInit
  rw [if_neg (by omega), if_neg hs, if_neg (by omega), if_neg (by omega),
    if_neg (by rintro ⟨a, b, c⟩; exact absurd (ho a b) (by omega))]

theorem mkPhases_ok (specs : List PhaseSpec) (h : ∀ s ∈ specs, phaseValid s) :
    mkPhases specs =
      Except.ok (specs.map (fun s => ⟨s.duration, s.state, s.min_dur, s.max_dur, s.name⟩)) := by
  induction specs with
  | nil => rfl
  | cons s ss ih =>
    have hs := h s (List.mem_cons_self s ss)
    have hss := ih (fun t ht => h t (List.mem_cons_of_mem s ht))
    simp [mkPhases, phaseInit_valid s hs, hss]

/-! ## Claim theorems: phases, serialization, flows -/

/-- C5 (amended): there is no `PhaseLengthMismatch` check anywhere in the
code.  Building a `TrafficLight` from any list of individually valid phase
arguments succeeds and stores exactly those phases, regardless of their
state-string lengths; in particular, once a program contains phases,
appending one more phase of a different state-string length (the case
`specs = old ++ [new]`) also succeeds. -/
theorem C5_no_phase_length_check (id : String) (specs : List PhaseSpec)
    (tlt pid : String) (off : ℤ) (h : ∀ s ∈ specs, phaseValid s) :
    mkTrafficLightChecked id specs tlt pid off =
      Except.ok ⟨id,
        specs.map (fun s => ⟨s.duration, s.state, s.min_dur, s.max_dur, s.name⟩),
        tlt, pid, off⟩ := by
  unfold mkTrafficLightChecked
  rw [mkPhases_ok specs h]

/-- C5 witness: a program whose two phases have state strings of lengths 4
and 3 is accepted, via the theorem at that concrete input. -/
theorem C5_no_phase_length_check_witness :
    mkTrafficLightChecked "TL1" [⟨30, "GGrr", 0, 0, ""⟩, ⟨3, "yyr", 0, 0, ""⟩]
        "static" "0" 0 =
      Except.ok ⟨"TL1", [⟨30, "GGrr", 0, 0, ""⟩, ⟨3, "yyr", 0, 0, ""⟩],
        "static", "0", 0⟩ :=
  C5_no_phase_length_check "TL1" [⟨30, "GGrr", 0, 0, ""⟩, ⟨3, "yyr", 0, 0, ""⟩]
    "static" "0" 0 (by decide)

/-- C5 counterexample: appending the length-2 phase "GG" to a program whose
first phase has the length-1 state "G" does not fail — construction succeeds
and the mismatched program is stored as-is, so the claimed
`PhaseLengthMismatch` failure does not happen. -/
theorem C5_counterexample :
    mkTrafficLightChecked "C" [⟨30, "G", 0, 0, ""⟩, ⟨30, "GG", 0, 0, ""⟩]
        "static" "0" 0 =
      Except.ok ⟨"C", [⟨30, "G", 0, 0, ""⟩, ⟨30, "GG", 0, 0, ""⟩], "static", "0", 0⟩ ∧
    ("G" : String).length ≠ ("GG" : String).length := by
  exact ⟨rfl, by decide⟩

/-- C6 (amended): serialization performs no referential-integrity check.
The edges file always contains one record per Link in insertion order, even
for a Link whose to-junction id resolves to no Junction of the graph; there
is no `DanglingReferenceError` in the code. -/
theorem C6_no_dangling_reference_check (g : NetworkGenerator) (e : Edge)
    (he : e ∈ g.edges) (hd : e.to_node ∉ nodeIds g) :
    edgeElem e ∈ (generate_edges_xml g).children ∧
    (generate_edges_xml g).children = g.edges.map edgeElem :=
  ⟨List.mem_map_of_mem _ he, rfl⟩

/-- C6 witness: the theorem applied to a one-node graph whose single edge
ends at the missing junction id "B". -/
theorem C6_no_dangling_reference_check_witness :
    edgeElem ⟨"E1", "A", "B", 1, 10, 1, "", "", ""⟩ ∈
      (generate_edges_xml ⟨[⟨"A", 0, 0, "priority", ""⟩],
        [⟨"E1", "A", "B", 1, 10, 1, "", "", ""⟩], [], []⟩).children :=
  (C6_no_dangling_reference_check
    ⟨[⟨"A", 0, 0, "priority", ""⟩], [⟨"E1", "A", "B", 1, 10, 1, "", "", ""⟩], [], []⟩
    ⟨"E1", "A", "B", 1, 10, 1, "", "", ""⟩ (by decide) (by decide)).1

/-- C6 counterexample: serializing a graph whose single Link references the
missing junction id "B" succeeds, producing a complete edges file that
contains the dangling reference — the claimed `DanglingReferenceError`
failure does not happen. -/
theorem C6_counterexample :
    renderDoc (generate_edges_xml ⟨[⟨"A", 0, 0, "priority", ""⟩],
        [⟨"E1", "A", "B", 1, 10, 1, "", "", ""⟩], [], []⟩) =
      "<?xml version=\"1.0\" ?>\n<edges>\n    <edge id=\"E1\" from=\"A\" to=\"B\" numLanes=\"1\" speed=\"10\" priority=\"1\"/>\n</edges>" ∧
    "B" ∉ nodeIds ⟨[⟨"A", 0, 0, "priority", ""⟩],
        [⟨"E1", "A", "B", 1, 10, 1, "", "", ""⟩], [], []⟩ := by
  exact ⟨rfl, by decide⟩

/-- C9: serialization is a pure function of the graph, so serializing the
same unmodified graph twice yields byte-identical output for every generated
file; each document lists its entities in insertion order (the children are
the mapped entity lists in list order, a newly added node's record goes to
the end, and the rendered bytes concatenate the records in that order); the
final conjunct shows insertion order is kept even against alphabetical
order ("Z" before "A"), i.e. no sorting happens. -/
theorem C9_byte_identical_insertion_order (g : NetworkGenerator) (n : Node)
    (nm : String) :
    save_all g nm = save_all g nm ∧
    (generate_nodes_xml g).children = g.nodes.map nodeElem ∧
    (generate_edges_xml g).children = g.edges.map edgeElem ∧
    (generate_connections_xml g).children = g.connections.map connectionElem ∧
    (generate_tll_xml g).children = g.traffic_lights.map tlElem ∧
    (generate_nodes_xml (add_node g n)).children =
      (generate_nodes_xml g).children ++ [nodeElem n] ∧
    renderDoc (generate_nodes_xml g) =
      "<?xml version=\"1.0\" ?>\n<nodes>\n"
        ++ String.join (g.nodes.map (fun x => renderElem (nodeElem x)))
        ++ "</nodes>" ∧
    renderDoc (generate_nodes_xml
        ⟨[⟨"Z", 0, 0, "priority", ""⟩, ⟨"A", 0, 0, "priority", ""⟩], [], [], []⟩) =
      "<?xml version=\"1.0\" ?>\n<nodes>\n    <node id=\"Z\" x=\"0\" y=\"0\" type=\"priority\"/>\n    <node id=\"A\" x=\"0\" y=\"0\" type=\"priority\"/>\n</nodes>" := by
  refine ⟨rfl, rfl, rfl, rfl, rfl, ?_, ?_, by rfl⟩
  · simp [add_node, generate_nodes_xml]
  · simp only [renderDoc, generate_nodes_xml, List.map_map]
    rw [String.append_assoc, String.append_assoc]
    rfl

/-- C8 (amended): a flow record carries at most one demand-rate attribute,
chosen by first-set-wins precedence in the order vehsPerHour, probability,
period, number over the positive fields; when at least one of the four
fields is positive it carries exactly one; a Flow whose four rate fields are
all unset (≤ 0) — constructible, since `Flow` has no validation — emits no
demand-rate attribute at all. -/
theorem C8_demand_rate_first_set_wins (f : Flow)
    (h : 0 < f.vehs_per_hour ∨ 0 < f.probability ∨ 0 < f.period ∨ 0 < f.number) :
    ((flowAttrs f).filter (fun kv => decide (kv.1 ∈ demandKeys))).length = 1 ∧
    (flowAttrs f).filter (fun kv => decide (kv.1 ∈ demandKeys)) =
      (if 0 < f.vehs_per_hour then [("vehsPerHour", qStr f.vehs_per_hour)]
       else if 0 < f.probability then [("probability", qStr f.probability)]
       else if 0 < f.period then [("period", qStr f.period)]
       else [("number", toString f.number)]) := by
  have hmid : ((if f.route_id ≠ "" then [("route", f.route_id)]
      else (if f.from_edge ≠ "" then [("from", f.from_edge)] else [])
        ++ (if f.to_edge ≠ "" then [("to", f.to_edge)] else [])).filter
          (fun kv => decide (kv.1 ∈ demandKeys))) = [] := by
    split_ifs <;> rfl
  have hdem : (flowDemandAttrs f).filter (fun kv => decide (kv.1 ∈ demandKeys)) =
      flowDemandAttrs f := by
    unfold flowDemandAttrs
    split_ifs <;> rfl
  have hsplit : (flowAttrs f).filter (fun kv => decide (kv.1 ∈ demandKeys)) =
      flowDemandAttrs f := by
    unfold flowAttrs
    rw [List.filter_append, List.filter_append, hmid, hdem]
    rfl
  rw [hsplit]
  unfold flowDemandAttrs
  constructor
  · split_ifs with h1 h2 h3 h4
    · rfl
    · rfl
    · rfl
    · rfl
    · rcases h with h | h | h | h <;> contradiction
  · split_ifs with h1 h2 h3 h4
    · rfl
    · rfl
    · rfl
    · rfl
    · rcases h with h | h | h | h <;> contradiction

/-- C8 witness: a flow with both probability (0.5) and period (5) positive
but vehsPerHour unset emits exactly the probability attribute, via the
theorem at that concrete input. -/
theorem C8_demand_rate_first_set_wins_witness :
    ((flowAttrs ⟨"f1", "e1", "e2", "", "DEFAULT_VEHTYPE", 0, 3600, 0, 1/2, 5, 0⟩).filter
        (fun kv => decide (kv.1 ∈ demandKeys))).length = 1 ∧
    (flowAttrs ⟨"f1", "e1", "e2", "", "DEFAULT_VEHTYPE", 0, 3600, 0, 1/2, 5, 0⟩).filter
        (fun kv => decide (kv.1 ∈ demandKeys)) = [("probability", qStr (1/2))] := by
  have h := C8_demand_rate_first_set_wins
    ⟨"f1", "e1", "e2", "", "DEFAULT_VEHTYPE", 0, 3600, 0, 1/2, 5, 0⟩
    (by norm_num)
  norm_num at h
  exact h

/-- C8 counterexample: the default-constructed Flow (all four rate fields 0)
is accepted by the code — `Flow` has no validation — and its serialized
record carries no demand-rate attribute at all, not exactly one as
claimed. -/
theorem C8_counterexample :
    (flowAttrs ⟨"f0", "", "", "", "DEFAULT_VEHTYPE", 0, 3600, 0, 0, 0, 0⟩).filter
        (fun kv => decide (kv.1 ∈ demandKeys)) = [] := by
  rfl

/-- C10: when `route_id` is non-empty the flow record carries the `route`
attribute and no `from`/`to` attribute whatsoever, even if `from_edge` and
`to_edge` are set; the `from`/`to` attributes are emitted exactly when
`route_id` is empty and the respective field is non-empty. -/
theorem C10_route_reference_precedence (f : Flow) :
    (f.route_id ≠ "" →
      ("route", f.route_id) ∈ flowAttrs f ∧
      (∀ v, ("from", v) ∉ flowAttrs f) ∧
      (∀ v, ("to", v) ∉ flowAttrs f)) ∧
    (f.route_id = "" → f.from_edge ≠ "" → ("from", f.from_edge) ∈ flowAttrs f) ∧
    (f.route_id = "" → f.to_edge ≠ "" → ("to", f.to_edge) ∈ flowAttrs f) := by
  refine ⟨?_, ?_, ?_⟩
  · intro hr
    refine ⟨?_, ?_, ?_⟩
    · unfold flowAttrs
      rw [if_pos hr]
      simp
    · intro v hv
      unfold flowAttrs flowDemandAttrs at hv
      rw [if_pos hr] at hv
      split_ifs at hv <;> simp_all
    · intro v hv
      unfold flowAttrs flowDemandAttrs at hv
      rw [if_pos hr] at hv
      split_ifs at hv <;> simp_all
  · intro hr hf
    unfold flowAttrs
    rw [if_neg (by simp [hr]), if_pos hf]
    simp
  · intro hr ht
    unfold flowAttrs
    rw [if_neg (by simp [hr])]
    by_cases hf : f.from_edge ≠ ""
    · rw [if_pos hf, if_pos ht]
      simp
    · rw [if_neg hf, if_pos ht]
      simp

/-- C10 witness: a flow with `route_id = "r7"` and both `from_edge` and
`to_edge` set carries the route attribute and omits both endpoint
attributes, via the theorem at that concrete input. -/
theorem C10_route_reference_precedence_witness :
    ("route", "r7") ∈
      flowAttrs ⟨"fw", "eA", "eB", "r7", "DEFAULT_VEHTYPE", 0, 3600, 100, 0, 0, 0⟩ ∧
    ("from", "eA") ∉
      flowAttrs ⟨"fw", "eA", "eB", "r7", "DEFAULT_VEHTYPE", 0, 3600, 100, 0, 0, 0⟩ ∧
    ("to", "eB") ∉
      flowAttrs ⟨"fw", "eA", "eB", "r7", "DEFAULT_VEHTYPE", 0, 3600, 100, 0, 0, 0⟩ := by
  have h := (C10_route_reference_precedence
    ⟨"fw", "eA", "eB", "r7", "DEFAULT_VEHTYPE", 0, 3600, 100, 0, 0, 0⟩).1 (by decide)
  exact ⟨h.1, h.2.1 "eA", h.2.2 "eB"⟩

end ClickSUMO
